import Mathlib

/-!
Verification of the cross-process coordination layer in src/common/structs.py:
CounterContext, Popup, DaemonProcess, DaemonPipe, ChildPipe and Timestamp.

Modelling conventions:
* json.loads / json.dumps (Python stdlib, external to this repository) are
  abstracted as parameters decode : String -> Option M and encode : M -> String;
  decode returning none models json.loads raising JSONDecodeError on that line.
* Exceptions are modelled with Except; a Python function that cannot raise is
  given a plain (or Except-free) return type, or is shown never to produce
  Except.error.
* The stdout stream of the daemon process is modelled as the list of lines it
  will ever produce; the empty list means the stream has reached end of file
  (readline would return empty bytes and at_eof() would be true).
* strftime together with the indirect settings lookup is abstracted as a
  parameter strftime : Int -> Except PyExc String, since the formatting code
  lives outside this repository; Timestamp.display wraps it in try/except.
-/

namespace Structs

/-- Generic Python exception, used where only raising vs not raising matters. -/
inductive PyExc where
  | exc
deriving DecidableEq, Repr

/-! ## CounterContext (src/common/structs.py lines 20-36)

A reentrancy-depth counter. The async context manager methods delegate to the
synchronous ones, so one model covers both. Python integers are unbounded and
signed, hence count : Int. -/

structure CounterContext where
  count : Int
deriving DecidableEq, Repr

/-- Model of CounterContext.__init__: count starts at 0. -/
def CounterContext.init : CounterContext := { count := 0 }

/-- Model of CounterContext.__enter__ (and __aenter__, which calls it). -/
def CounterContext.enter (c : CounterContext) : CounterContext :=
  { count := c.count + 1 }

/-- Model of CounterContext.__exit__ (and __aexit__, which calls it). -/
def CounterContext.exit (c : CounterContext) : CounterContext :=
  { count := c.count - 1 }

/-- Scoped use of a CounterContext: a with-block body is itself a sequence of
scopes, may raise, and nested with-blocks run __exit__ on every path (normal
completion or exception), as Python's with-statement guarantees. -/
inductive Scope where
  | skip
  | raise_
  | seq (a b : Scope)
  | nest (body : Scope)
deriving DecidableEq, Repr

/-- Run a scoped program: returns the final counter and whether the program
completed without an exception. A nest runs __enter__, the body, then always
__exit__ (Python runs __exit__ even when the body raises); a raise inside a
seq skips the rest of the sequence. -/
def Scope.run : Scope → CounterContext → CounterContext × Bool
  | .skip, c => (c, true)
  | .raise_, c => (c, false)
  | .seq a b, c =>
    match a.run c with
    | (c', true) => b.run c'
    | (c', false) => (c', false)
  | .nest body, c =>
    match body.run c.enter with
    | (c', ok) => (c'.exit, ok)

/-- Every counter value observed strictly inside the program (after each
enter, after each exit). -/
def Scope.states : Scope → CounterContext → List Int
  | .skip, _ => []
  | .raise_, _ => []
  | .seq a b, c =>
    match a.run c with
    | (c', true) => a.states c ++ b.states c'
    | (_, false) => a.states c
  | .nest body, c =>
    c.enter.count :: body.states c.enter ++ [((body.run c.enter).1.exit).count]

/-! ## Popup (src/common/structs.py lines 39-58)

A functools.partial subclass. The wrapped render step is modelled by the pair
(opened, closed) it would return on a given call; the call wrapper is a
function of the current open flag. The third component of the result records
whether the wrapped render step was invoked. -/

/-- Model of Popup.__call__ on current flag opn, where render is the value
(opened, closed) that super().__call__ would return this tick. Result:
((opened, closed) returned, new open flag, whether render was invoked). -/
def Popup.call (opn : Bool) (render : Nat × Bool) : (Nat × Bool) × Bool × Bool :=
  if opn then
    ((render.1, render.2), !render.2, true)
  else
    ((0, true), false, false)

/-- Fold the open flag through a sequence of calls with the given render
results. -/
def Popup.runOpen (opn : Bool) (renders : List (Nat × Bool)) : Bool :=
  renders.foldl (fun o r => (Popup.call o r).2.1) opn

/-! ### Popup correlation id (src/common/structs.py lines 44-50)

The id is the f-string formed from the class-level counter, the fractional
digits of time.time(), and utils.rand_num_str(), joined by underscores. The
latter two are digit strings; we model them as arbitrary natural numbers
rendered in decimal, which is faithful since both consist only of decimal
digits. -/

/-- Decimal rendering of a nonnegative Python int, as produced by str(). -/
def natStr (n : Nat) : String :=
  if n = 0 then "0"
  else String.mk ((Nat.digits 10 n).reverse.map Nat.digitChar)

/-- Numeric value of a decimal digit character. -/
def charVal (c : Char) : Nat := c.toNat - 48

/-- Parse a big-endian list of decimal digit characters back to a number. -/
def parseNat (l : List Char) : Nat := l.foldl (fun a c => 10 * a + charVal c) 0

/-- Model of the f-string building Popup.uuid: counter, fractional-time
digits, random digits, joined by underscores. -/
def Popup.mkUuid (uuid timePart randPart : Nat) : String :=
  natStr uuid ++ "_" ++ natStr timePart ++ "_" ++ natStr randPart

/-- Model of Popup.__init__'s id assignment: read the class counter, bump it.
Returns the new Popup's uuid and the updated class counter. -/
def Popup.initUuid (next_uuid timePart randPart : Nat) : String × Nat :=
  (Popup.mkUuid next_uuid timePart randPart, next_uuid + 1)

/-- Counter value consumed by the i-th Popup construction of a run that
started with class counter next0. -/
def Popup.counterSeq (next0 : Nat) : Nat → Nat
  | 0 => next0
  | i + 1 => (Popup.initUuid (Popup.counterSeq next0 i) 0 0).2

/-- Recover the counter component from a uuid string: the digits before the
first underscore. -/
def uuidCounter (s : String) : Nat :=
  parseNat (s.data.takeWhile (fun c => c != '_'))

/-! ## DaemonProcess (src/common/structs.py lines 61-87) -/

/-- Model of the process handle that DaemonProcess.kill inspects via getattr.
An Option (Option Int) field is none when the attribute is absent (so getattr
yields the non-None default) and some x when present with value x; some none
is the still-running convention. The poll field models the result of calling
proc.poll (absent attribute: the default lambda returns False, not None).
alive is the actual OS-level process state and kill_raises says whether
proc.kill() would raise. -/
structure Proc where
  exitcode : Option (Option Int)
  returncode : Option (Option Int)
  poll : Option (Option Int)
  alive : Bool
  kill_raises : Bool
deriving DecidableEq, Repr

/-- Normalized liveness check performed by DaemonProcess.kill: the if/elif
chain issues kill exactly when one of the three probes yields None. -/
def Proc.check_running (p : Proc) : Bool :=
  p.exitcode = some none || p.returncode = some none || p.poll = some none

/-- Body of DaemonProcess.kill inside the try block: issue proc.kill() only
when the normalized liveness check says running; proc.kill() may raise.
Returns the process state and whether proc.kill() was invoked. -/
def DaemonProcess.kill_body (p : Proc) : Except PyExc (Proc × Bool) :=
  if p.check_running then
    if p.kill_raises then Except.error PyExc.exc
    else Except.ok ({ p with alive := false }, true)
  else
    Except.ok (p, false)

/-- Model of DaemonProcess.kill: the try/except Exception: pass wrapper around
kill_body. The Except result type records that the method itself could in
principle raise; the theorem shows it never does. -/
def DaemonProcess.kill_exc (p : Proc) : Except PyExc (Proc × Bool) :=
  match DaemonProcess.kill_body p with
  | Except.ok r => Except.ok r
  | Except.error _ => Except.ok (p, true)

/-- Result of DaemonProcess.kill as a total function. -/
def DaemonProcess.kill (p : Proc) : Proc × Bool :=
  match DaemonProcess.kill_exc p with
  | Except.ok r => r
  | Except.error _ => (p, true)

/-- Guard state: weakref.finalize objects invoke their callback at most once
(stdlib guarantee); the flag records whether the finalizer already ran. Both
DaemonProcess.__exit__ (explicit release) and garbage collection of the
process object (automatic backstop) call the same finalize object. -/
structure DaemonProcess where
  finalize_called : Bool
deriving DecidableEq, Repr

/-- Model of invoking the finalize object (explicit __exit__ path or the
automatic backstop): runs DaemonProcess.kill on the process the first time,
does nothing afterwards. -/
def DaemonProcess.finalize (d : DaemonProcess) (p : Proc) : DaemonProcess × Proc :=
  if d.finalize_called then (d, p)
  else ({ finalize_called := true }, (DaemonProcess.kill p).1)

/-! ## DaemonPipe (src/common/structs.py lines 100-141)

Controller-side transport. The process's stdout is the list of lines it will
ever produce; an exhausted list means at_eof(). returncode is checked (via
is_alive) before each read and before each write. -/

/-- Terminal condition raised by DaemonPipe when the daemon process is gone. -/
inductive DaemonPipeExit where
  | exit
deriving DecidableEq, Repr

/-- Model of DaemonPipe.get_async: while is_alive() and not at_eof(), read a
line and try to decode it, silently skipping lines whose decode fails
(json.JSONDecodeError is caught); when the loop condition fails, raise
DaemonPipeExit. Returns the decoded message and the remaining stream. -/
def DaemonPipe.get_async (decode : String → Option M) (returncode : Option Int) :
    List String → Except DaemonPipeExit (M × List String)
  | [] => Except.error DaemonPipeExit.exit
  | line :: rest =>
    if returncode = none then
      match decode line with
      | some msg => Except.ok (msg, rest)
      | none => DaemonPipe.get_async decode returncode rest
    else
      Except.error DaemonPipeExit.exit

/-- Model of DaemonPipe.put: if returncode is None, append the encoded line to
the process's stdin buffer; otherwise raise DaemonPipeExit. -/
def DaemonPipe.put (encode : M → String) (returncode : Option Int)
    (stdin : List String) (data : M) : Except DaemonPipeExit (List String) :=
  if returncode = none then Except.ok (stdin ++ [encode data])
  else Except.error DaemonPipeExit.exit

/-- Repeatedly call get_async on a healthy pipe (returncode None), collecting
the messages in the order the calls return them, until the terminal condition
or fuel runs out. -/
def DaemonPipe.drain (decode : String → Option M) : Nat → List String → List M
  | 0, _ => []
  | fuel + 1, lines =>
    match DaemonPipe.get_async decode none lines with
    | Except.error _ => []
    | Except.ok (msg, rest) => msg :: DaemonPipe.drain decode fuel rest

/-! ## ChildPipe (src/common/structs.py lines 144-185)

Worker-side transport, reading from its own standard input. -/

/-- Possible states of the stdin_event slot after ChildPipe.__init__: the slot
is never assigned (no running loop or no stdin), assigned None (add_reader
raised NotImplementedError), or holds an asyncio.Event (reader registered). -/
inductive StdinEvent where
  | unset
  | none_
  | event
deriving DecidableEq, Repr

/-- State of a ChildPipe after construction. -/
structure ChildPipe where
  loop : Bool
  stdin_event : StdinEvent
deriving DecidableEq, Repr

/-- Model of ChildPipe.__init__, parameterized by whether a running event loop
exists, whether sys.stdin is set, and whether loop.add_reader supports stdin
(raising NotImplementedError when not). -/
def ChildPipe.init (hasRunningLoop hasStdin addReaderSupported : Bool) : ChildPipe :=
  { loop := hasRunningLoop
    stdin_event :=
      if hasRunningLoop && hasStdin then
        if addReaderSupported then StdinEvent.event else StdinEvent.none_
      else StdinEvent.unset }

/-- Whether __init__ registered a readiness callback for stdin with the loop:
add_reader was attempted and did not raise NotImplementedError. -/
def ChildPipe.readerRegistered (hasRunningLoop hasStdin addReaderSupported : Bool) : Bool :=
  hasRunningLoop && hasStdin && addReaderSupported

/-- Scheduling-relevant actions one iteration of ChildPipe.get_async performs. -/
inductive AsyncAction where
  | waitEvent
  | clearEvent
  | executorRead
deriving DecidableEq, Repr

/-- Actions of one iteration of the ChildPipe.get_async loop: when stdin_event
holds an event, await it and clear it first; in every case the readline itself
is dispatched with loop.run_in_executor, i.e. performed on a worker thread. -/
def ChildPipe.get_async_actions (p : ChildPipe) : List AsyncAction :=
  (if p.stdin_event = StdinEvent.event then
    [AsyncAction.waitEvent, AsyncAction.clearEvent]
  else []) ++ [AsyncAction.executorRead]

/-- Value semantics of ChildPipe.get_async over the modelled window of lines:
return the first line that decodes, skipping failures; none means no line of
the window decoded and the loop is still running. -/
def ChildPipe.get_async (decode : String → Option M) :
    List String → Option (M × List String)
  | [] => none
  | line :: rest =>
    match decode line with
    | some msg => some (msg, rest)
    | none => ChildPipe.get_async decode rest

/-- Repeatedly call ChildPipe.get_async, collecting messages in order. -/
def ChildPipe.drain (decode : String → Option M) : Nat → List String → List M
  | 0, _ => []
  | fuel + 1, lines =>
    match ChildPipe.get_async decode lines with
    | none => []
    | some (msg, rest) => msg :: ChildPipe.drain decode fuel rest

/-- Model of ChildPipe.get observed for fuel iterations: read the line at the
current position of the stdin stream, return it if it decodes, otherwise loop
forever. The result none means the loop has not returned after fuel
iterations; there is no error case because json.JSONDecodeError is caught and
readline on an exhausted stdin returns an (undecodable) empty string. -/
def ChildPipe.get (decode : String → Option M) (stdin : Nat → String) :
    Nat → Nat → Option M
  | _, 0 => none
  | pos, fuel + 1 =>
    match decode (stdin pos) with
    | some msg => some msg
    | none => ChildPipe.get decode stdin (pos + 1) fuel

/-! ## Timestamp (src/common/structs.py lines 188-217) -/

/-- State of a Timestamp: the stored epoch and the cached display string
(None when the cache is clear). -/
structure Timestamp where
  value : Int
  _display : Option String
deriving DecidableEq, Repr

/-- Model of Timestamp.update: a non-None argument replaces the stored epoch;
in both cases the cached display is cleared. -/
def Timestamp.update (t : Timestamp) (unix_time : Option Int) : Timestamp :=
  { value := match unix_time with | some v => v | none => t.value
    _display := none }

/-- Model of Timestamp.__init__, which delegates to update. -/
def Timestamp.init (unix_time : Int) : Timestamp :=
  Timestamp.update { value := 0, _display := none } (some unix_time)

/-- Model of the Timestamp.display property. strftime abstracts
dt.datetime.fromtimestamp(value).strftime(format) with the current format:
ok is the formatted string, error models any exception, which the code turns
into the fixed fallback. Returns the display string and the state with the
cache filled; the Except wrapper records whether the property raises. -/
def Timestamp.display_exc (strftime : Int → Except PyExc String) (t : Timestamp) :
    Except PyExc (String × Timestamp) :=
  match t._display with
  | some d => Except.ok (d, t)
  | none =>
    let d :=
      if t.value = 0 then ""
      else
        match strftime t.value with
        | Except.ok s => s
        | Except.error _ => "Bad format!"
    Except.ok (d, { t with _display := some d })

/-- Concrete decoder used to instantiate the abstract json.loads parameter in
witnesses: recognizes the two literal lines m1 and m2, fails on all others. -/
def sampleDecode : String → Option Nat :=
  fun s => if s = "m1" then some 1 else if s = "m2" then some 2 else none

/-! ## Helper lemmas -/

theorem charVal_digitChar {d : Nat} (h : d < 10) : charVal (Nat.digitChar d) = d := by
  interval_cases d <;> decide

theorem parse_ofDigits (ds : List Nat) (a : Nat) (h : ∀ d ∈ ds, d < 10) :
    List.foldl (fun x c => 10 * x + charVal c) a (ds.reverse.map Nat.digitChar)
      = a * 10 ^ ds.length + Nat.ofDigits 10 ds := by
  induction ds generalizing a with
  | nil => simp [Nat.ofDigits]
  | cons d ds ih =>
    have hd : d < 10 := h d (by simp)
    have hds : ∀ x ∈ ds, x < 10 := fun x hx => h x (by simp [hx])
    simp only [List.reverse_cons, List.map_append, List.foldl_append, List.map_cons,
      List.map_nil, List.foldl_cons, List.foldl_nil, List.length_cons]
    rw [ih a hds, charVal_digitChar hd, Nat.ofDigits_cons]
    ring

theorem parseNat_natStr (n : Nat) : parseNat (natStr n).data = n := by
  by_cases h : n = 0
  · subst h; decide
  · have hd : ∀ d ∈ Nat.digits 10 n, d < 10 :=
      fun d hdm => Nat.digits_lt_base (by norm_num) hdm
    simp only [natStr, h, if_false]
    show parseNat ((Nat.digits 10 n).reverse.map Nat.digitChar) = n
    unfold parseNat
    rw [parse_ofDigits _ _ hd]
    simp [Nat.ofDigits_digits]

theorem natStr_no_underscore (n : Nat) : ∀ c ∈ (natStr n).data, (c != '_') = true := by
  by_cases h : n = 0
  · subst h
    intro c hc
    have : c = '0' := by simpa [natStr] using hc
    subst this; decide
  · intro c hc
    simp only [natStr, h, if_false] at hc
    have hc' : c ∈ (Nat.digits 10 n).reverse.map Nat.digitChar := hc
    rw [List.mem_map] at hc'
    obtain ⟨d, hd, rfl⟩ := hc'
    rw [List.mem_reverse] at hd
    have hlt : d < 10 := Nat.digits_lt_base (by norm_num) hd
    interval_cases d <;> decide

theorem takeWhile_no_underscore (u x : List Char)
    (hu : ∀ c ∈ u, (c != '_') = true) :
    List.takeWhile (fun c => c != '_') (u ++ '_' :: x) = u := by
  induction u with
  | nil => simp [List.takeWhile]
  | cons c u ih =>
    have hc := hu c (by simp)
    simp [List.takeWhile_cons, hc, ih (fun d hd => hu d (by simp [hd]))]

theorem uuidCounter_mkUuid (n t r : Nat) : uuidCounter (Popup.mkUuid n t r) = n := by
  unfold uuidCounter Popup.mkUuid
  have hdata : (natStr n ++ "_" ++ natStr t ++ "_" ++ natStr r).data
      = (natStr n).data ++ '_' :: ((natStr t).data ++ '_' :: (natStr r).data) := by
    simp [String.data_append]
  rw [hdata, takeWhile_no_underscore _ _ (natStr_no_underscore n), parseNat_natStr]

theorem counterSeq_eq (next0 k : Nat) : Popup.counterSeq next0 k = next0 + k := by
  induction k with
  | zero => simp [Popup.counterSeq]
  | succ k ih => simp [Popup.counterSeq, Popup.initUuid, ih]; omega

theorem daemonpipe_get_ok {M : Type} (decode : String → Option M) :
    ∀ (lines : List String) (m : M) (rest : List String),
      DaemonPipe.get_async decode none lines = Except.ok (m, rest) →
      lines.filterMap decode = m :: rest.filterMap decode ∧ rest.length < lines.length := by
  intro lines
  induction lines with
  | nil => intro m rest h; simp [DaemonPipe.get_async] at h
  | cons l ls ih =>
    intro m rest h
    simp only [DaemonPipe.get_async, if_pos rfl] at h
    cases hd : decode l with
    | some m' =>
      rw [hd] at h
      simp only [Except.ok.injEq, Prod.mk.injEq] at h
      obtain ⟨rfl, rfl⟩ := h
      simp [List.filterMap_cons, hd]
    | none =>
      rw [hd] at h
      have := ih m rest h
      simp [List.filterMap_cons, hd, this.1]
      omega

theorem daemonpipe_get_error {M : Type} (decode : String → Option M) :
    ∀ (lines : List String) (e : DaemonPipeExit),
      DaemonPipe.get_async decode none lines = Except.error e →
      lines.filterMap decode = [] := by
  intro lines
  induction lines with
  | nil => intro e _; rfl
  | cons l ls ih =>
    intro e h
    simp only [DaemonPipe.get_async, if_pos rfl] at h
    cases hd : decode l with
    | some m' => rw [hd] at h; simp at h
    | none =>
      rw [hd] at h
      simp [List.filterMap_cons, hd, ih e h]

theorem childpipe_get_some {M : Type} (decode : String → Option M) :
    ∀ (lines : List String) (m : M) (rest : List String),
      ChildPipe.get_async decode lines = some (m, rest) →
      lines.filterMap decode = m :: rest.filterMap decode ∧ rest.length < lines.length := by
  intro lines
  induction lines with
  | nil => intro m rest h; simp [ChildPipe.get_async] at h
  | cons l ls ih =>
    intro m rest h
    simp only [ChildPipe.get_async] at h
    cases hd : decode l with
    | some m' =>
      rw [hd] at h
      simp only [Option.some.injEq, Prod.mk.injEq] at h
      obtain ⟨rfl, rfl⟩ := h
      simp [List.filterMap_cons, hd]
    | none =>
      rw [hd] at h
      have := ih m rest h
      simp [List.filterMap_cons, hd, this.1]
      omega

theorem childpipe_get_none {M : Type} (decode : String → Option M) :
    ∀ (lines : List String),
      ChildPipe.get_async decode lines = none →
      lines.filterMap decode = ([] : List M) := by
  intro lines
  induction lines with
  | nil => intro _; rfl
  | cons l ls ih =>
    intro h
    simp only [ChildPipe.get_async] at h
    cases hd : decode l with
    | some m' => rw [hd] at h; simp at h
    | none => rw [hd] at h; simp [List.filterMap_cons, hd, ih h]

theorem daemonpipe_drain_eq {M : Type} (decode : String → Option M) :
    ∀ (fuel : Nat) (lines : List String), lines.length ≤ fuel →
      DaemonPipe.drain decode fuel lines = lines.filterMap decode := by
  intro fuel
  induction fuel with
  | zero =>
    intro lines h
    have : lines = [] := List.length_eq_zero.mp (Nat.le_zero.mp h)
    subst this; rfl
  | succ fuel ih =>
    intro lines h
    unfold DaemonPipe.drain
    cases hg : DaemonPipe.get_async decode none lines with
    | error e => rw [daemonpipe_get_error decode lines e hg]
    | ok p =>
      obtain ⟨m, rest⟩ := p
      obtain ⟨hfm, hlen⟩ := daemonpipe_get_ok decode lines m rest hg
      rw [hfm]
      exact congrArg (m :: ·) (ih rest (by omega))

theorem childpipe_drain_eq {M : Type} (decode : String → Option M) :
    ∀ (fuel : Nat) (lines : List String), lines.length ≤ fuel →
      ChildPipe.drain decode fuel lines = lines.filterMap decode := by
  intro fuel
  induction fuel with
  | zero =>
    intro lines h
    have : lines = [] := List.length_eq_zero.mp (Nat.le_zero.mp h)
    subst this; rfl
  | succ fuel ih =>
    intro lines h
    unfold ChildPipe.drain
    cases hg : ChildPipe.get_async decode lines with
    | none => rw [childpipe_get_none decode lines hg]
    | some p =>
      obtain ⟨m, rest⟩ := p
      obtain ⟨hfm, hlen⟩ := childpipe_get_some decode lines m rest hg
      rw [hfm]
      exact congrArg (m :: ·) (ih rest (by omega))

theorem popup_runOpen_false (renders : List (Nat × Bool)) :
    Popup.runOpen false renders = false := by
  induction renders with
  | nil => rfl
  | cons r rs ih =>
    show List.foldl _ (Popup.call false r).2.1 rs = false
    simpa [Popup.call] using ih

theorem scope_run_count (s : Scope) : ∀ c : CounterContext,
    ((Scope.run s c).1).count = c.count := by
  induction s with
  | skip => intro c; rfl
  | raise_ => intro c; rfl
  | seq a b iha ihb =>
    intro c
    unfold Scope.run
    have ha := iha c
    rcases hac : Scope.run a c with ⟨c', ok⟩
    rw [hac] at ha
    cases ok
    · simpa using ha
    · have hb := ihb c'
      simpa [hb] using ha
  | nest body ihb =>
    intro c
    unfold Scope.run
    have hb := ihb c.enter
    rcases hbc : Scope.run body c.enter with ⟨c', ok⟩
    rw [hbc] at hb
    simp only [CounterContext.exit, CounterContext.enter] at hb ⊢
    omega

theorem scope_states_lower (s : Scope) : ∀ (c : CounterContext),
    ∀ x ∈ Scope.states s c, c.count ≤ x := by
  induction s with
  | skip => intro c x hx; simp [Scope.states] at hx
  | raise_ => intro c x hx; simp [Scope.states] at hx
  | seq a b iha ihb =>
    intro c x hx
    unfold Scope.states at hx
    have ha := scope_run_count a c
    rcases hac : Scope.run a c with ⟨c', ok⟩
    rw [hac] at hx ha
    cases ok
    · exact iha c x (by simpa using hx)
    · rcases List.mem_append.mp (by simpa using hx) with hx' | hx'
      · exact iha c x hx'
      · have := ihb c' x hx'
        simp at ha
        omega
  | nest body ihb =>
    intro c x hx
    unfold Scope.states at hx
    have hb := scope_run_count body c.enter
    rcases List.mem_cons.mp hx with hx' | hx'
    · subst hx'
      simp [CounterContext.enter]
    · rcases List.mem_append.mp hx' with hx'' | hx''
      · have := ihb c.enter x hx''
        simp [CounterContext.enter] at this
        omega
      · simp at hx''
        subst hx''
        simp only [CounterContext.exit, CounterContext.enter]
        simp only [CounterContext.enter] at hb
        omega

/-! ## Claim theorems -/

/-- C1: once the daemon process has exited (returncode is set) or its stdout
stream has reached end of file, the next DaemonPipe.get_async raises the
terminal DaemonPipeExit instead of reading, and for a set returncode the next
DaemonPipe.put raises DaemonPipeExit instead of writing. -/
theorem daemonpipe_terminal {M : Type} (decode : String → Option M) (encode : M → String)
    (c : Int) (lines stdin : List String) (data : M) (returncode : Option Int) :
    DaemonPipe.get_async decode (some c) lines = Except.error DaemonPipeExit.exit
    ∧ DaemonPipe.get_async decode returncode ([] : List String)
        = Except.error DaemonPipeExit.exit
    ∧ DaemonPipe.put encode (some c) stdin data = Except.error DaemonPipeExit.exit := by
  refine ⟨?_, rfl, ?_⟩
  · cases lines <;> simp [DaemonPipe.get_async]
  · simp [DaemonPipe.put]

/-- C2: on a healthy transport, repeated get calls return the decoded messages
in arrival order, skipping every line whose decode fails; the result type of
get has no decode-error case (json.JSONDecodeError is caught inside the loop),
so decode failures are never propagated and later valid lines still decode.
Holds for both the controller side (DaemonPipe.get_async with returncode None)
and the worker side (ChildPipe.get_async). -/
theorem transport_order_and_skip {M : Type} (decode : String → Option M)
    (fuel : Nat) (lines : List String) (h : lines.length ≤ fuel) :
    DaemonPipe.drain decode fuel lines = lines.filterMap decode
    ∧ ChildPipe.drain decode fuel lines = lines.filterMap decode :=
  ⟨daemonpipe_drain_eq decode fuel lines h, childpipe_drain_eq decode fuel lines h⟩

/-- Witness for C2: a valid line, an undecodable noise line, then another
valid line; both sides deliver the two messages in order. -/
theorem transport_order_and_skip_witness :
    DaemonPipe.drain sampleDecode 3 ["m1", "noise", "m2"]
        = ["m1", "noise", "m2"].filterMap sampleDecode
    ∧ ChildPipe.drain sampleDecode 3 ["m1", "noise", "m2"]
        = ["m1", "noise", "m2"].filterMap sampleDecode :=
  transport_order_and_skip sampleDecode 3 ["m1", "noise", "m2"] (by decide)

/-- C3: DaemonProcess.kill never raises (the try/except swallows every failure
of proc.kill()), it issues kill only when the normalized liveness check says
the process is still running (otherwise the process state is untouched and no
kill is issued), and releasing through both the explicit scope-exit path and
the automatic backstop — both of which invoke the same weakref.finalize object
— yields the same process state as releasing once. -/
theorem daemonprocess_kill_safe (p q : Proc) (g : DaemonProcess) (e : PyExc)
    (h : p.check_running = false) :
    DaemonProcess.kill_exc q ≠ Except.error e
    ∧ DaemonProcess.kill p = (p, false)
    ∧ DaemonProcess.finalize (DaemonProcess.finalize g q).1 (DaemonProcess.finalize g q).2
        = DaemonProcess.finalize g q := by
  refine ⟨?_, ?_, ?_⟩
  · unfold DaemonProcess.kill_exc
    cases DaemonProcess.kill_body q <;> simp
  · unfold DaemonProcess.kill DaemonProcess.kill_exc DaemonProcess.kill_body
    simp [h]
  · cases hg : g.finalize_called with
    | true =>
      have h1 : DaemonProcess.finalize g q = (g, q) := by
        unfold DaemonProcess.finalize; rw [hg]; simp
      rw [h1]
      simpa using h1
    | false =>
      have h1 : DaemonProcess.finalize g q
          = (DaemonProcess.mk true, (DaemonProcess.kill q).1) := by
        unfold DaemonProcess.finalize; rw [hg]; simp
      rw [h1]
      unfold DaemonProcess.finalize
      simp

/-- Witness for C3: a process handle whose three probes all report an exit
code (liveness check false) is untouched; kill on a running handle never
surfaces an error; double release equals single release. -/
theorem daemonprocess_kill_safe_witness :
    DaemonProcess.kill_exc (Proc.mk (some none) none none true false) ≠ Except.error PyExc.exc
    ∧ DaemonProcess.kill (Proc.mk (some (some 0)) (some (some 0)) (some (some 0)) true false)
        = (Proc.mk (some (some 0)) (some (some 0)) (some (some 0)) true false, false)
    ∧ DaemonProcess.finalize
        (DaemonProcess.finalize (DaemonProcess.mk false)
          (Proc.mk (some none) none none true false)).1
        (DaemonProcess.finalize (DaemonProcess.mk false)
          (Proc.mk (some none) none none true false)).2
        = DaemonProcess.finalize (DaemonProcess.mk false)
            (Proc.mk (some none) none none true false) :=
  daemonprocess_kill_safe
    (Proc.mk (some (some 0)) (some (some 0)) (some (some 0)) true false)
    (Proc.mk (some none) none none true false)
    (DaemonProcess.mk false) PyExc.exc (by decide)

/-- C4: when a call on an open Popup reports closed = true, the open flag is
set to false; once false, every later call — whatever render result its
arguments would have produced — returns (0, true) without invoking the wrapped
render step, and the flag stays false through any sequence of further calls. -/
theorem popup_closed_permanent (r r' : Nat × Bool) (renders : List (Nat × Bool))
    (h : ((Popup.call true r).1).2 = true) :
    (Popup.call true r).2.1 = false
    ∧ Popup.call false r' = ((0, true), false, false)
    ∧ Popup.runOpen false renders = false := by
  refine ⟨?_, rfl, popup_runOpen_false renders⟩
  simp [Popup.call] at h ⊢
  exact h

/-- Witness for C4: a render step that reports closed; afterwards calls
short-circuit and the flag never reopens. -/
theorem popup_closed_permanent_witness :
    (Popup.call true (1, true)).2.1 = false
    ∧ Popup.call false (3, false) = ((0, true), false, false)
    ∧ Popup.runOpen false [(3, false), (2, true)] = false :=
  popup_closed_permanent (1, true) (3, false) [(3, false), (2, true)] (by decide)

/-- C5: any two Popups created within the same process run — in particular
two created in rapid succession, whatever fractional-time and random parts
their ids embed — receive distinct correlation ids, because the id embeds the
class-level counter incremented on every construction. -/
theorem popup_uuids_distinct (next0 i j ti ri tj rj : Nat) (h : i ≠ j) :
    Popup.mkUuid (Popup.counterSeq next0 i) ti ri
      ≠ Popup.mkUuid (Popup.counterSeq next0 j) tj rj := by
  intro heq
  have hcnt := congrArg uuidCounter heq
  rw [uuidCounter_mkUuid, uuidCounter_mkUuid, counterSeq_eq, counterSeq_eq] at hcnt
  exact h (by omega)

/-- Witness for C5: the first and second Popups of a run have distinct ids
even with identical time and random components. -/
theorem popup_uuids_distinct_witness :
    Popup.mkUuid (Popup.counterSeq 0 0) 5 7 ≠ Popup.mkUuid (Popup.counterSeq 0 1) 5 7 :=
  popup_uuids_distinct 0 0 1 5 7 5 7 (by decide)

/-- C6 counterexample: even when the cooperative scheduler registered the
stdin readiness callback (ChildPipe.init with a running loop, stdin present
and add_reader supported, so stdin_event holds an event), an iteration of
ChildPipe.get_async still dispatches the readline through
loop.run_in_executor — that is, it defers the blocking read to a separate
worker thread, which the claim says happens only when readiness notification
is unavailable. -/
theorem childpipe_executor_read_always :
    AsyncAction.executorRead ∈ ChildPipe.get_async_actions (ChildPipe.init true true true) := by
  decide

/-- C6 (amended): ChildPipe.__init__ registers a readiness callback for stdin
exactly when a running loop and stdin exist and add_reader is supported; when
the callback is registered, get_async first suspends on the readiness event
and clears it, and in both cases the readline itself is dispatched to a
separate worker thread via run_in_executor and awaited. -/
theorem childpipe_strategy (hasLoop hasStdin supported : Bool) :
    ChildPipe.readerRegistered hasLoop hasStdin supported
      = decide ((ChildPipe.init hasLoop hasStdin supported).stdin_event = StdinEvent.event)
    ∧ ChildPipe.get_async_actions (ChildPipe.init true true true)
      = [AsyncAction.waitEvent, AsyncAction.clearEvent, AsyncAction.executorRead]
    ∧ ChildPipe.get_async_actions (ChildPipe.init true true false)
      = [AsyncAction.executorRead] := by
  cases hasLoop <;> cases hasStdin <;> cases supported <;> decide

/-- C7: reading Timestamp.display never raises: for a cleared cache a zero
epoch yields the empty string (the unset sentinel), and a formatting failure
on a non-zero epoch yields the fixed fallback string instead of propagating
the exception. -/
theorem timestamp_display_total (strftime : Int → Except PyExc String)
    (t : Timestamp) (e : PyExc) :
    (∀ err : PyExc, Timestamp.display_exc strftime t ≠ Except.error err)
    ∧ (t._display = none → t.value = 0 →
        Timestamp.display_exc strftime t = Except.ok ("", { t with _display := some "" }))
    ∧ (t._display = none → t.value ≠ 0 → strftime t.value = Except.error e →
        Timestamp.display_exc strftime t
          = Except.ok ("Bad format!", { t with _display := some "Bad format!" })) := by
  refine ⟨?_, ?_, ?_⟩
  · intro err
    unfold Timestamp.display_exc
    cases t._display <;> simp
  · intro hcache hzero
    unfold Timestamp.display_exc
    rw [hcache]
    simp [hzero]
  · intro hcache hnz hfail
    unfold Timestamp.display_exc
    rw [hcache]
    simp [hnz, hfail]

/-- Witness for C7: with a strftime that always raises, a zero-epoch
Timestamp displays the empty string, a non-zero one displays the fallback,
and neither read raises. -/
theorem timestamp_display_total_witness :
    Timestamp.display_exc (fun _ => Except.error PyExc.exc) (Timestamp.mk 0 none)
        ≠ Except.error PyExc.exc
    ∧ Timestamp.display_exc (fun _ => Except.error PyExc.exc) (Timestamp.mk 0 none)
        = Except.ok ("", { Timestamp.mk 0 none with _display := some "" })
    ∧ Timestamp.display_exc (fun _ => Except.error PyExc.exc) (Timestamp.mk 5 none)
        = Except.ok ("Bad format!", { Timestamp.mk 5 none with _display := some "Bad format!" }) :=
  ⟨(timestamp_display_total (fun _ => Except.error PyExc.exc) (Timestamp.mk 0 none) PyExc.exc).1
      PyExc.exc,
   (timestamp_display_total (fun _ => Except.error PyExc.exc) (Timestamp.mk 0 none) PyExc.exc).2.1
      rfl rfl,
   (timestamp_display_total (fun _ => Except.error PyExc.exc) (Timestamp.mk 5 none) PyExc.exc).2.2
      rfl (by decide) rfl⟩

/-- C8: Timestamp.update with a value replaces the stored epoch and clears
the cached display; update with no value clears the cached display and leaves
the stored epoch unchanged, so the next display read recomputes. -/
theorem timestamp_update_semantics (t : Timestamp) (v : Int) :
    Timestamp.update t (some v) = Timestamp.mk v none
    ∧ Timestamp.update t none = Timestamp.mk t.value none :=
  ⟨rfl, rfl⟩

/-- C9: for every scoped use of a CounterContext — arbitrary nesting of
with-blocks whose bodies may complete normally or raise — the count after the
scope exits equals the count before it was entered, and starting from a
nonnegative count every intermediate count stays nonnegative. The async
context manager methods delegate to the synchronous ones, so the statement
covers both. -/
theorem counter_scope_restores_and_nonneg (s : Scope) (c : CounterContext)
    (h : 0 ≤ c.count) :
    ((Scope.run s c).1).count = c.count
    ∧ (Scope.states s c).all (fun x => decide (0 ≤ x)) = true := by
  refine ⟨scope_run_count s c, ?_⟩
  rw [List.all_eq_true]
  intro x hx
  rw [decide_eq_true_eq]
  exact le_trans h (scope_states_lower s c x hx)

/-- Witness for C9: a with-block whose body runs a nested with-block that
raises; the counter returns to 0 and never goes negative. -/
theorem counter_scope_restores_and_nonneg_witness :
    ((Scope.run (Scope.nest (Scope.seq Scope.skip (Scope.nest Scope.raise_)))
        CounterContext.init).1).count = CounterContext.init.count
    ∧ (Scope.states (Scope.nest (Scope.seq Scope.skip (Scope.nest Scope.raise_)))
        CounterContext.init).all (fun x => decide (0 ≤ x)) = true :=
  counter_scope_restores_and_nonneg
    (Scope.nest (Scope.seq Scope.skip (Scope.nest Scope.raise_)))
    CounterContext.init (by decide)

/-- C10: the worker-side synchronous read has no terminal condition: if every
line readline yields fails to decode — in particular an exhausted stdin,
whose readline yields only empty strings — ChildPipe.get has not returned
after any number of iterations; there is no exception case because
json.JSONDecodeError is caught, unlike DaemonPipe.get_async which raises
DaemonPipeExit at end of file. -/
theorem childpipe_get_no_terminal {M : Type} (decode : String → Option M)
    (stdin : Nat → String) (h : ∀ i, decode (stdin i) = none)
    (pos fuel : Nat) :
    ChildPipe.get decode stdin pos fuel = none := by
  induction fuel generalizing pos with
  | zero => rfl
  | succ fuel ih =>
    unfold ChildPipe.get
    rw [h pos]
    exact ih (pos + 1)

/-- Witness for C10: on an exhausted stdin (readline yields only empty
strings, which never decode) the read loop has not produced a result after
five iterations. -/
theorem childpipe_get_no_terminal_witness :
    ChildPipe.get sampleDecode (fun _ => "") 0 5 = none :=
  childpipe_get_no_terminal sampleDecode (fun _ => "")
    (fun _ => by show sampleDecode "" = none; decide) 0 5

end Structs
